import Mathlib

/-!
Verification of the greenhouse watering-timer state machine from
`src/index.tsx` (a Preact application).  The state-machine core is embedded
shallowly:

* JS `Date` values are modelled as `Int` millisecond timestamps;
* JS numbers occurring in timer state (`currentTime`, durations) are modelled
  as `Int` (all reachable values are integral);
* `null` is modelled by `Option.none`;
* the JS record `Record<string, Greenhouse>` is modelled as an insertion
  ordered association list (JS object keys are unique; `{...obj, [k]: v}`
  keeps the position of an existing key and appends a fresh one);
* the impure log-id generator `log_${Date.now()}_${random}` is abstracted as
  an explicit id argument / id-generator argument;
* `Math.round(x/y)` for `y > 0` is `⌊x/y + 1/2⌋`, i.e. `(2*x + y) / (2*y)`
  with Lean's floor division on `Int`.
-/

namespace Gradina

/-- JS `Math.round (num / den)` for a positive denominator `den`:
`Math.round x = ⌊x + 1/2⌋` (JS rounds halves toward +∞), so
`Math.round (num/den) = ⌊(2*num + den) / (2*den)⌋`.  Lean's `/` on `Int` is
floor division for positive divisors. -/
def jsRound (num den : Int) : Int := (2 * num + den) / (2 * den)

/-- Field `status ∈ {"completed", "canceled"}` of a `LogEntry` (src/index.tsx:47). -/
inductive Status where
  | completed
  | canceled
deriving DecidableEq

/-- Record `LogEntry` (src/index.tsx:42-48): `date` is a `Date` modelled as ms
timestamp, `duration` is in minutes. -/
structure LogEntry where
  id : String
  greenhouseId : String
  date : Int
  duration : Int
  status : Status
deriving DecidableEq

/-- Type `Omit<LogEntry, "id">`, the argument of `addLogEntry`. -/
structure LogDraft where
  greenhouseId : String
  date : Int
  duration : Int
  status : Status
deriving DecidableEq

/-- Record `LogsState` (src/index.tsx:62-64). -/
structure LogsState where
  entries : List LogEntry
deriving DecidableEq

/-- Record `Greenhouse` (src/index.tsx:50-55): `lastRun`/`targetTime` are
`Date | null`, `currentTime` is seconds remaining (`number | null`). -/
structure Greenhouse where
  label : String
  lastRun : Option Int
  currentTime : Option Int
  targetTime : Option Int
deriving DecidableEq

/-- Record `AppState` (src/index.tsx:57-60); `greenhouses` is the insertion-ordered
string-keyed record. -/
structure AppState where
  greenhouses : List (String × Greenhouse)
  activeTimer : Option String
deriving DecidableEq

/-- Function `addLogEntry` (src/index.tsx:114-123): attaches the (impure, here
explicit) fresh `id`, prepends the new entry and keeps at most 1000 entries
(`[newEntry, ...logs.entries].slice(0, 1000)`). -/
def addLogEntry (logs : LogsState) (entry : LogDraft) (id : String) : LogsState :=
  { entries :=
      (({ id := id, greenhouseId := entry.greenhouseId, date := entry.date,
          duration := entry.duration, status := entry.status } : LogEntry)
        :: logs.entries).take 1000 }

/-- Property read `state.greenhouses[k]` on the string-keyed record. -/
def lookupGH : List (String × Greenhouse) → String → Option Greenhouse
  | [], _ => none
  | (k', g) :: rest, k => if k' = k then some g else lookupGH rest k

/-- Record update `{...gs, [k]: g}`: replaces the entry at its original
position when the key exists, appends it otherwise. -/
def setGH : List (String × Greenhouse) → String → Greenhouse → List (String × Greenhouse)
  | [], k, g => [(k, g)]
  | (k', g') :: rest, k, g =>
      if k' = k then (k, g) :: rest else (k', g') :: setGH rest k g

/-- One iteration of the timer-update loop body for a single greenhouse
(src/index.tsx:441-468): if `currentTime !== null && currentTime > 0`,
decrement; when the new time is exactly `0` and both `targetTime` and
`lastRun` are truthy (non-null `Date`s), emit the "completed" log draft with
`duration = Math.round((targetTime - lastRun) / 60000)` and `date = lastRun`.
Returns the updated greenhouse and the optional draft. -/
def tickOne (k : String) (g : Greenhouse) : Greenhouse × Option LogDraft :=
  match g.currentTime with
  | some c =>
      if 0 < c then
        ({ g with currentTime := some (c - 1) },
          if c - 1 = 0 then
            match g.targetTime, g.lastRun with
            | some t, some r =>
                some { greenhouseId := k, date := r,
                       duration := jsRound (t - r) 60000, status := Status.completed }
            | _, _ => none
          else none)
      else (g, none)
  | none => (g, none)

/-- The `Object.keys(newState.greenhouses).forEach` loop of the timer update
effect (src/index.tsx:441-469): iterates the record in insertion order,
ticking every greenhouse and threading the queued `setLogs(addLogEntry ...)`
updates; `gen` supplies the fresh id of the `n`-th appended entry. -/
def tickFold (gen : Nat → String) :
    List (String × Greenhouse) → LogsState → Nat →
      List (String × Greenhouse) × LogsState × Nat
  | [], logs, n => ([], logs, n)
  | (k, g) :: rest, logs, n =>
      match tickOne k g with
      | (g', some d) =>
          let r := tickFold gen rest (addLogEntry logs d (gen n)) (n + 1)
          ((k, g') :: r.1, r.2)
      | (g', none) =>
          let r := tickFold gen rest logs n
          ((k, g') :: r.1, r.2)

/-- One firing of the `setInterval` timer callback (src/index.tsx:435-476):
the combined effect on app state and log store.  (`hasChanges ? newState :
prevState` returns a value equal to `newState` in either case.) -/
def tickStep (gen : Nat → String) (s : AppState) (logs : LogsState) :
    AppState × LogsState :=
  let r := tickFold gen s.greenhouses logs 0
  ({ s with greenhouses := r.1 }, r.2.1)

/-- Iterated ticks. -/
def iterTick (gen : Nat → String) : Nat → AppState × LogsState → AppState × LogsState
  | 0, p => p
  | n + 1, p => iterTick gen n (tickStep gen p.1 p.2)

/-- The greenhouse value written by `handleTimerSelect`
(src/index.tsx:523-528): `{...prev.greenhouses[k], lastRun: now,
currentTime: minutes*60, targetTime: now + minutes*60*1000}`.  When the key
is absent the spread of `undefined` contributes nothing (the label field is
then absent; modelled as `""`, a case unreachable for the fixed key set). -/
def startGH (g : Option Greenhouse) (minutes now : Int) : Greenhouse :=
  { label := match g with | some g' => g'.label | none => "",
    lastRun := some now,
    currentTime := some (minutes * 60),
    targetTime := some (now + minutes * 60 * 1000) }

/-- Handler `handleTimerSelect` (src/index.tsx:511-536): Start.  Guard
`if (!selectedGreenhouse) return;`, then sets the active timer pointer and
replaces the selected greenhouse.  `now` is `new Date()` at the call. -/
def handleTimerSelect (selected : Option String) (minutes now : Int)
    (s : AppState) : AppState :=
  match selected with
  | none => s
  | some k =>
      { greenhouses := setGH s.greenhouses k (startGH (lookupGH s.greenhouses k) minutes now),
        activeTimer := some k }

/-- Handler `handleGreenhouseClick` (src/index.tsx:478-509).  Arguments `modalOpen`
and `selected` are the current modal `useState` values, returned possibly
updated.  `none` models the `TypeError` thrown on an unknown key
(`greenhouse.currentTime` on `undefined`).  Branches: `currentTime === 0` →
acknowledge (reset greenhouse, clear active timer); `currentTime !== null &&
currentTime > 0` → no-op; otherwise → open the timer-selection modal. -/
def handleGreenhouseClick (s : AppState) (modalOpen : Bool)
    (selected : Option String) (k : String) :
    Option (AppState × Bool × Option String) :=
  match lookupGH s.greenhouses k with
  | none => none
  | some g =>
      match g.currentTime with
      | some c =>
          if c = 0 then
            some ({ greenhouses :=
                      setGH s.greenhouses k
                        { g with currentTime := none, targetTime := none },
                    activeTimer := none }, modalOpen, selected)
          else if 0 < c then
            some (s, modalOpen, selected)
          else
            some (s, true, some k)
      | none => some (s, true, some k)

/-- Handler `handleTimerCancel` (src/index.tsx:543-585).  Guard
`if (!state.activeTimer) return;` leaves everything unchanged; an active
timer naming an unknown key throws inside the updater (`none`).  Otherwise:
when `currentTime !== null && currentTime > 0 && lastRun && targetTime`, a
"canceled" entry is appended with
`duration = Math.round((targetTime - lastRun)/60000) - Math.round(currentTime/60)`
and `date = lastRun`; in every case the greenhouse is reset and the active
timer pointer cleared.  `id` is the fresh log id. -/
def handleTimerCancel (s : AppState) (logs : LogsState) (id : String) :
    Option (AppState × LogsState) :=
  match s.activeTimer with
  | none => some (s, logs)
  | some k =>
      match lookupGH s.greenhouses k with
      | none => none
      | some g =>
          let logs' :=
            match g.currentTime, g.lastRun, g.targetTime with
            | some c, some r, some t =>
                if 0 < c then
                  addLogEntry logs
                    { greenhouseId := k, date := r,
                      duration := jsRound (t - r) 60000 - jsRound c 60,
                      status := Status.canceled } id
                else logs
            | _, _, _ => logs
          some ({ greenhouses :=
                    setGH s.greenhouses k
                      { g with currentTime := none, targetTime := none },
                  activeTimer := none }, logs')

/-- Value `defaultState` (src/index.tsx:66-82): five idle greenhouses
`solar0..solar4` with the labels of `LABELS.solar1..solar5`. -/
def defaultState : AppState :=
  { greenhouses :=
      [("solar0", { label := "Solar Costica", lastRun := none, currentTime := none, targetTime := none }),
       ("solar1", { label := "Solar Nea Ilie", lastRun := none, currentTime := none, targetTime := none }),
       ("solar2", { label := "Solar Mare", lastRun := none, currentTime := none, targetTime := none }),
       ("solar3", { label := "Solar Mic", lastRun := none, currentTime := none, targetTime := none }),
       ("solar4", { label := "Solar Lung", lastRun := none, currentTime := none, targetTime := none })],
    activeTimer := none }

/-- Value `defaultLogsState` (src/index.tsx:84-109): three seed entries for
`solar0`, dated relative to `Date.now()` (`now`). -/
def defaultLogsState (now : Int) : LogsState :=
  { entries :=
      [{ id := "log1", greenhouseId := "solar0", date := now - 2 * 60 * 60 * 1000,
         duration := 15, status := Status.completed },
       { id := "log2", greenhouseId := "solar0", date := now - 6 * 60 * 60 * 1000,
         duration := 8, status := Status.canceled },
       { id := "log3", greenhouseId := "solar0", date := now - 24 * 60 * 60 * 1000,
         duration := 10, status := Status.completed }] }

/-! ### Persistence bridge (startup load, src/index.tsx:372-417)

JS values living in the two persisted slots are modelled by `Json`;
`Json.date v` stands for a `Date` object built by `new Date(v)` during the
reconstruction pass (absent from anything `JSON.parse` can produce).  A slot
is `Option (Option Json)`: `none` when `localStorage.getItem` returned
`null`, `some none` when the stored text is malformed (`JSON.parse` throws),
`some (some j)` when it parses to `j`. -/

inductive Json where
  | null
  | bool (b : Bool)
  | num (n : Int)
  | str (s : String)
  | arr (elems : List Json)
  | obj (fields : List (String × Json))
  | date (raw : Json)

/-- JS truthiness of a parsed value (objects, arrays and `Date`s are always
truthy; `null`, `false`, `0` and `""` are falsy). -/
def jsTruthy : Json → Bool
  | Json.null => false
  | Json.bool b => b
  | Json.num n => n != 0
  | Json.str s => s != ""
  | Json.arr _ => true
  | Json.obj _ => true
  | Json.date _ => true

def lookupField : List (String × Json) → String → Option Json
  | [], _ => none
  | (k, v) :: rest, name => if k = name then some v else lookupField rest name

/-- Property read `j.name`: `none` models JS `undefined` (and the `TypeError`
raised when `j` itself is `null` — both abort the guarded `try` block). -/
def getField : Json → String → Option Json
  | Json.obj fs, name => lookupField fs name
  | _, _ => none

def setFieldList : List (String × Json) → String → Json → List (String × Json)
  | [], name, v => [(name, v)]
  | (k, w) :: rest, name, v =>
      if k = name then (name, v) :: rest else (k, w) :: setFieldList rest name v

/-- Property write `j[name] = v` on an object (keeps the position of an
existing key, appends a fresh one). -/
def setField (j : Json) (name : String) (v : Json) : Json :=
  match j with
  | Json.obj fs => Json.obj (setFieldList fs name v)
  | _ => j

def isNullJ : Json → Bool
  | Json.null => true
  | _ => false

/-- The date-reconstruction step for one field
(src/index.tsx:378-389): `if (g[name]) { g[name] = new Date(g[name]); }`.
On a non-object the property read yields `undefined` (falsy) and nothing
happens. -/
def convDateField (g : Json) (name : String) : Json :=
  match getField g name with
  | some v => if jsTruthy v then setField g name (Json.date v) else g
  | none => g

def convGreenhouse (g : Json) : Json :=
  convDateField (convDateField g "lastRun") "targetTime"

/-- The `Object.keys(parsed.greenhouses).forEach` reconstruction over the
`greenhouses` value (src/index.tsx:378-389).  `none` models a thrown
`TypeError`: `Object.keys` throws on `null`, and a `null` member value makes
the `lastRun` read throw.  Primitive values iterate without effect
(`Object.keys` of a primitive succeeds and their members have no `lastRun`). -/
def decodeGreenhouses : Json → Option Json
  | Json.null => none
  | Json.obj fs =>
      if fs.any (fun p => isNullJ p.2) then none
      else some (Json.obj (fs.map (fun p => (p.1, convGreenhouse p.2))))
  | Json.arr es =>
      if es.any isNullJ then none
      else some (Json.arr (es.map convGreenhouse))
  | v => some v

/-- The `try` block of the app-state initializer (src/index.tsx:376-393):
reads `parsed.greenhouses` (a missing field or non-object `parsed` throws in
`Object.keys`), reconstructs dates, then normalizes a falsy `activeTimer` to
`null`.  `none` models a thrown exception, caught at src/index.tsx:394. -/
def tryDecodeState (j : Json) : Option Json :=
  match getField j "greenhouses" with
  | none => none
  | some v =>
      match decodeGreenhouses v with
      | none => none
      | some v' =>
          let j1 := setField j "greenhouses" v'
          if jsTruthy ((getField j1 "activeTimer").getD Json.null) then some j1
          else some (setField j1 "activeTimer" Json.null)

/-- Spread `{...entry, date: new Date(entry.date)}` (src/index.tsx:407-410); a
missing `date` yields `new Date(undefined)`, modelled as `date null`. -/
def convEntry (e : Json) : Json :=
  match e with
  | Json.obj fs =>
      Json.obj (setFieldList fs "date" (Json.date ((lookupField fs "date").getD Json.null)))
  | _ => Json.obj [("date", Json.date Json.null)]

/-- The `try` block of the logs initializer (src/index.tsx:404-411):
`parsed.entries.map(...)` throws unless `entries` is an array, and an
array member `null` makes `entry.date` throw. -/
def tryDecodeLogs (j : Json) : Option Json :=
  match getField j "entries" with
  | some (Json.arr es) =>
      if es.any isNullJ then none
      else some (setField j "entries" (Json.arr (es.map convEntry)))
  | _ => none

def ghJson (label : String) : Json :=
  Json.obj [("label", Json.str label), ("lastRun", Json.null),
            ("currentTime", Json.null), ("targetTime", Json.null)]

/-- Value `defaultState` (src/index.tsx:66-82) as the JS value returned by the
initializer when loading fails. -/
def defaultStateJson : Json :=
  Json.obj [("activeTimer", Json.null),
            ("greenhouses",
              Json.obj [("solar0", ghJson "Solar Costica"),
                        ("solar1", ghJson "Solar Nea Ilie"),
                        ("solar2", ghJson "Solar Mare"),
                        ("solar3", ghJson "Solar Mic"),
                        ("solar4", ghJson "Solar Lung")])]

def logEntryJson (id gid : String) (dateMs : Int) (dur : Int) (st : String) : Json :=
  Json.obj [("id", Json.str id), ("greenhouseId", Json.str gid),
            ("date", Json.date (Json.num dateMs)), ("duration", Json.num dur),
            ("status", Json.str st)]

/-- Value `defaultLogsState` (src/index.tsx:84-109) as a JS value; `now` is
`Date.now()` at module evaluation. -/
def defaultLogsJson (now : Int) : Json :=
  Json.obj [("entries",
    Json.arr [logEntryJson "log1" "solar0" (now - 2 * 60 * 60 * 1000) 15 "completed",
              logEntryJson "log2" "solar0" (now - 6 * 60 * 60 * 1000) 8 "canceled",
              logEntryJson "log3" "solar0" (now - 24 * 60 * 60 * 1000) 10 "completed"])]

/-- The app-state `useState` initializer (src/index.tsx:372-399): absent
slot, parse failure or a shape failure inside the `try` block all fall back
to `defaultState`. -/
def loadAppState (slot : Option (Option Json)) : Json :=
  match slot with
  | none => defaultStateJson
  | some none => defaultStateJson
  | some (some j) =>
      match tryDecodeState j with
      | some j' => j'
      | none => defaultStateJson

/-- The logs `useState` initializer (src/index.tsx:401-417). -/
def loadLogs (now : Int) (slot : Option (Option Json)) : Json :=
  match slot with
  | none => defaultLogsJson now
  | some none => defaultLogsJson now
  | some (some j) =>
      match tryDecodeLogs j with
      | some j' => j'
      | none => defaultLogsJson now

/-- A greenhouse the tick loop does not touch: `currentTime` is `null` or
not positive. -/
def notRunning (g : Greenhouse) : Prop :=
  ∀ c, g.currentTime = some c → c ≤ 0

/-- The idle invariant for one greenhouse:
`currentTime == null ⇔ targetTime == null`. -/
def ghInv (g : Greenhouse) : Prop :=
  g.currentTime = none ↔ g.targetTime = none

/-- The idle invariant over the whole registry. -/
def stInv (s : AppState) : Prop :=
  ∀ p ∈ s.greenhouses, ghInv p.2

end Gradina

namespace Gradina

theorem addLogEntry_entries (logs : LogsState) (d : LogDraft) (id : String) :
    (addLogEntry logs d id).entries =
      ({ id := id, greenhouseId := d.greenhouseId, date := d.date,
         duration := d.duration, status := d.status } : LogEntry)
        :: logs.entries.take 999 := by
  simp [addLogEntry]

theorem tickOne_notRunning (k : String) (g : Greenhouse) (h : notRunning g) :
    tickOne k g = (g, none) := by
  cases hc : g.currentTime with
  | none => simp [tickOne, hc]
  | some c =>
      have := h c hc
      simp only [tickOne, hc]
      rw [if_neg (by omega)]

theorem tickFold_fst (gen : Nat → String) (l : List (String × Greenhouse)) :
    ∀ (logs : LogsState) (n : Nat),
      (tickFold gen l logs n).1 = l.map (fun p => (p.1, (tickOne p.1 p.2).1)) := by
  induction l with
  | nil => intro logs n; rfl
  | cons hd tl ih =>
      intro logs n
      obtain ⟨k, g⟩ := hd
      simp only [tickFold]
      cases htick : tickOne k g with
      | mk g' d =>
          cases d with
          | some d0 => simp [htick, ih]
          | none => simp [htick, ih]

theorem tickFold_notRunning (gen : Nat → String) (l : List (String × Greenhouse))
    (h : ∀ p ∈ l, notRunning p.2) :
    ∀ (logs : LogsState) (n : Nat), tickFold gen l logs n = (l, logs, n) := by
  induction l with
  | nil => intro logs n; rfl
  | cons hd tl ih =>
      intro logs n
      obtain ⟨k, g⟩ := hd
      have hg : notRunning g := h (k, g) (List.mem_cons_self _ _)
      simp only [tickFold, tickOne_notRunning k g hg]
      rw [ih (fun p hp => h p (List.mem_cons_of_mem _ hp)) logs n]

theorem tickFold_append (gen : Nat → String) (l1 l2 : List (String × Greenhouse)) :
    ∀ (logs : LogsState) (n : Nat),
      tickFold gen (l1 ++ l2) logs n =
        ((tickFold gen l1 logs n).1 ++
            (tickFold gen l2 (tickFold gen l1 logs n).2.1 (tickFold gen l1 logs n).2.2).1,
          (tickFold gen l2 (tickFold gen l1 logs n).2.1 (tickFold gen l1 logs n).2.2).2) := by
  induction l1 with
  | nil => intro logs n; simp [tickFold]
  | cons hd tl ih =>
      intro logs n
      obtain ⟨k, g⟩ := hd
      simp only [List.cons_append, tickFold]
      cases htick : tickOne k g with
      | mk g' d =>
          cases d with
          | some d0 => simp [htick, ih]
          | none => simp [htick, ih]

theorem lookupGH_append_right (pre rest : List (String × Greenhouse)) (k : String)
    (h : ∀ p ∈ pre, p.1 ≠ k) :
    lookupGH (pre ++ rest) k = lookupGH rest k := by
  induction pre with
  | nil => rfl
  | cons hd tl ih =>
      obtain ⟨k', g'⟩ := hd
      have : k' ≠ k := h (k', g') (List.mem_cons_self _ _)
      simp only [List.cons_append, lookupGH, if_neg this]
      exact ih (fun p hp => h p (List.mem_cons_of_mem _ hp))

theorem setGH_append_right (pre post : List (String × Greenhouse)) (k : String)
    (g g' : Greenhouse) (h : ∀ p ∈ pre, p.1 ≠ k) :
    setGH (pre ++ (k, g) :: post) k g' = pre ++ (k, g') :: post := by
  induction pre with
  | nil => simp [setGH]
  | cons hd tl ih =>
      obtain ⟨k0, g0⟩ := hd
      have : k0 ≠ k := h (k0, g0) (List.mem_cons_self _ _)
      simp only [List.cons_append, setGH, if_neg this, List.append_eq]
      rw [ih (fun p hp => h p (List.mem_cons_of_mem _ hp))]

theorem jsRound_select (m r : Int) :
    jsRound (r + m * 60 * 1000 - r) 60000 = m := by
  unfold jsRound
  omega

/-- One tick of a state whose only running greenhouse is `(k, g)` with
`currentTime = c > 0`: that greenhouse is decremented, everything else is
untouched, and the log store gains the "completed" entry exactly when the
decrement reaches `0` and both `targetTime` and `lastRun` are non-null. -/
theorem tickStep_single (gen : Nat → String) (s : AppState) (logs : LogsState)
    (pre post : List (String × Greenhouse)) (k : String) (g : Greenhouse) (c : Int)
    (hs : s.greenhouses = pre ++ (k, g) :: post)
    (hc : g.currentTime = some c) (hpos : 0 < c)
    (hpre : ∀ p ∈ pre, notRunning p.2) (hpost : ∀ p ∈ post, notRunning p.2) :
    tickStep gen s logs =
      ({ greenhouses := pre ++ (k, { g with currentTime := some (c - 1) }) :: post,
         activeTimer := s.activeTimer },
       if c = 1 then
         match g.targetTime, g.lastRun with
         | some t, some r =>
             addLogEntry logs
               { greenhouseId := k, date := r, duration := jsRound (t - r) 60000,
                 status := Status.completed } (gen 0)
         | _, _ => logs
       else logs) := by
  unfold tickStep
  rw [hs, tickFold_append, tickFold_notRunning gen pre hpre logs 0]
  by_cases hone : c = 1
  · subst hone
    cases ht : g.targetTime with
    | some t =>
        cases hr : g.lastRun with
        | some r =>
            have htick2 : tickOne k g =
                ({ g with currentTime := some 0 },
                  some { greenhouseId := k, date := r,
                         duration := jsRound (t - r) 60000, status := Status.completed }) := by
              simp [tickOne, hc, ht, hr]
            simp only [tickFold, htick2]
            rw [tickFold_notRunning gen post hpost _ 1]
            simp [ht, hr]
        | none =>
            have htick2 : tickOne k g = ({ g with currentTime := some 0 }, none) := by
              simp [tickOne, hc, ht, hr]
            simp only [tickFold, htick2]
            rw [tickFold_notRunning gen post hpost logs 0]
            simp [ht, hr]
    | none =>
        have htick2 : tickOne k g = ({ g with currentTime := some 0 }, none) := by
          simp [tickOne, hc, ht]
        simp only [tickFold, htick2]
        rw [tickFold_notRunning gen post hpost logs 0]
        simp [ht]
  · have htick2 : tickOne k g = ({ g with currentTime := some (c - 1) }, none) := by
      simp only [tickOne, hc]
      rw [if_pos hpos, if_neg (by omega)]
    simp only [tickFold, htick2]
    rw [tickFold_notRunning gen post hpost logs 0]
    simp [hone]

/-- Iterating `i ≤ c - 1` ticks on a state whose only running greenhouse is
`k` at `currentTime = c` decrements it to `c - i` and never touches the log
store. -/
theorem iterTick_running (gen : Nat → String) (pre post : List (String × Greenhouse))
    (hpre : ∀ p ∈ pre, notRunning p.2) (hpost : ∀ p ∈ post, notRunning p.2)
    (k lbl : String) (r t : Int) (act : Option String) (logs : LogsState) :
    ∀ (i : Nat) (c : Int), (i : Int) ≤ c - 1 →
      iterTick gen i
          ({ greenhouses := pre ++ (k, ⟨lbl, some r, some c, some t⟩) :: post,
             activeTimer := act }, logs)
        = ({ greenhouses := pre ++ (k, ⟨lbl, some r, some (c - i), some t⟩) :: post,
             activeTimer := act }, logs) := by
  intro i
  induction i with
  | zero => intro c hc; simp [iterTick]
  | succ n ih =>
      intro c hc
      have hpos : 0 < c := by
        have : ((n : Int) + 1) ≤ c - 1 := by push_cast at hc ⊢; omega
        omega
      have hone : c ≠ 1 := by
        have : ((n : Int) + 1) ≤ c - 1 := by push_cast at hc ⊢; omega
        omega
      simp only [iterTick]
      rw [tickStep_single gen _ logs pre post k ⟨lbl, some r, some c, some t⟩ c rfl rfl
        hpos hpre hpost]
      rw [if_neg hone]
      have step := ih (c - 1) (by push_cast at hc ⊢; omega)
      simp only at step
      rw [step]
      have : c - 1 - (n : Int) = c - ((n : Nat) + 1 : Nat) := by push_cast; omega
      rw [this]

theorem iterTick_add (gen : Nat → String) (a b : Nat) (p : AppState × LogsState) :
    iterTick gen (a + b) p = iterTick gen b (iterTick gen a p) := by
  induction a generalizing p with
  | zero => rw [Nat.zero_add]; rfl
  | succ n ih =>
      have : n + 1 + b = (n + b) + 1 := by omega
      rw [this]
      simp only [iterTick]
      exact ih _

/-- C1: Start(k, m) on an idle greenhouse followed by `m*60` ticks keeps the
greenhouse Running (`currentTime = m*60 - i > 0`) after each of the first
`m*60 - 1` ticks, puts it in JustCompleted (`currentTime = 0`) on the final
tick, and appends exactly one "completed" log entry whose duration is `m`
(the log store is untouched by every earlier tick). -/
theorem claim1_start_run_completes (gen : Nat → String) (m : Nat) (hm : 0 < m)
    (pre post : List (String × Greenhouse)) (k lbl : String)
    (lr0 tt0 : Option Int) (act : Option String) (now : Int) (logs : LogsState)
    (hpre : ∀ p ∈ pre, notRunning p.2 ∧ p.1 ≠ k)
    (hpost : ∀ p ∈ post, notRunning p.2)
    (s0 s1 : AppState)
    (hs0 : s0 = { greenhouses := pre ++ (k, ⟨lbl, lr0, none, tt0⟩) :: post,
                  activeTimer := act })
    (hs1 : s1 = handleTimerSelect (some k) (m : Int) now s0) :
    (∀ i : Nat, 1 ≤ i → i ≤ m * 60 - 1 →
        lookupGH (iterTick gen i (s1, logs)).1.greenhouses k
            = some ⟨lbl, some now, some ((m : Int) * 60 - i), some (now + (m : Int) * 60 * 1000)⟩
          ∧ 0 < (m : Int) * 60 - (i : Int)
          ∧ (iterTick gen i (s1, logs)).2 = logs) ∧
      lookupGH (iterTick gen (m * 60) (s1, logs)).1.greenhouses k
          = some ⟨lbl, some now, some 0, some (now + (m : Int) * 60 * 1000)⟩ ∧
      (iterTick gen (m * 60) (s1, logs)).2.entries
          = ({ id := gen 0, greenhouseId := k, date := now, duration := (m : Int),
               status := Status.completed } : LogEntry) :: logs.entries.take 999 := by
  have hpreK : ∀ p ∈ pre, p.1 ≠ k := fun p hp => (hpre p hp).2
  have hpreNR : ∀ p ∈ pre, notRunning p.2 := fun p hp => (hpre p hp).1
  have hs1' : s1 =
      { greenhouses := pre ++ (k, ⟨lbl, some now, some ((m : Int) * 60), some (now + (m : Int) * 60 * 1000)⟩) :: post,
        activeTimer := some k } := by
    rw [hs1, hs0]
    simp only [handleTimerSelect]
    rw [lookupGH_append_right pre _ k hpreK]
    simp only [lookupGH, if_pos rfl]
    rw [setGH_append_right pre post k _ _ hpreK]
    rfl
  refine ⟨?_, ?_, ?_⟩
  · intro i h1 hi
    have hcast : (i : Int) ≤ (m : Int) * 60 - 1 := by
      have : i ≤ m * 60 - 1 := hi
      omega
    rw [hs1', iterTick_running gen pre post hpreNR hpost k lbl now
      (now + (m : Int) * 60 * 1000) (some k) logs i ((m : Int) * 60) hcast]
    refine ⟨?_, by omega, rfl⟩
    rw [lookupGH_append_right pre _ k hpreK]
    simp [lookupGH]
  · have hsplit : m * 60 = (m * 60 - 1) + 1 := by omega
    have hcast : ((m * 60 - 1 : Nat) : Int) ≤ (m : Int) * 60 - 1 := by omega
    rw [hs1', hsplit, iterTick_add, iterTick_running gen pre post hpreNR hpost k lbl now
      (now + (m : Int) * 60 * 1000) (some k) logs (m * 60 - 1) ((m : Int) * 60) hcast]
    have hone : (m : Int) * 60 - ((m * 60 - 1 : Nat) : Int) = 1 := by omega
    rw [hone]
    simp only [iterTick]
    rw [tickStep_single gen _ logs pre post k _ 1 rfl rfl (by omega) hpreNR hpost]
    simp only [if_pos rfl, if_true]
    rw [lookupGH_append_right pre _ k hpreK]
    simp [lookupGH]
  · have hsplit : m * 60 = (m * 60 - 1) + 1 := by omega
    have hcast : ((m * 60 - 1 : Nat) : Int) ≤ (m : Int) * 60 - 1 := by omega
    rw [hs1', hsplit, iterTick_add, iterTick_running gen pre post hpreNR hpost k lbl now
      (now + (m : Int) * 60 * 1000) (some k) logs (m * 60 - 1) ((m : Int) * 60) hcast]
    have hone : (m : Int) * 60 - ((m * 60 - 1 : Nat) : Int) = 1 := by omega
    rw [hone]
    simp only [iterTick]
    rw [tickStep_single gen _ logs pre post k _ 1 rfl rfl (by omega) hpreNR hpost]
    simp only [if_pos rfl, if_true]
    rw [addLogEntry_entries]
    rw [jsRound_select m now]

/-- Witness for C1 at `m = 1`: the final log store after Start("solar0", 1)
and 60 ticks. -/
theorem claim1_witness :
    (iterTick (fun _ => "t") 60
        (handleTimerSelect (some "solar0") ((1 : Nat) : Int) 0
          { greenhouses := [("solar0", ⟨"A", none, none, none⟩)], activeTimer := none },
          ⟨[]⟩)).2.entries
      = [{ id := "t", greenhouseId := "solar0", date := 0, duration := ((1 : Nat) : Int),
           status := Status.completed }] :=
  (claim1_start_run_completes (fun _ => "t") 1 (by decide) [] [] "solar0" "A"
    none none none 0 ⟨[]⟩ (by simp) (by simp) _ _ rfl rfl).2.2

/-- C2 counterexample: with the Active Timer pointing at `solar0`, a tick
also decrements `solar1`, which is Running but not the active timer — its
state does not stay unchanged. -/
theorem claim2_counterexample :
    (tickStep (fun _ => "t")
        ⟨[("solar0", ⟨"A", some 0, some 10, some 600000⟩),
          ("solar1", ⟨"B", some 0, some 5, some 300000⟩)], some "solar0"⟩ ⟨[]⟩).1
      = ⟨[("solar0", ⟨"A", some 0, some 9, some 600000⟩),
          ("solar1", ⟨"B", some 0, some 4, some 300000⟩)], some "solar0"⟩
    ∧ (⟨"B", some 0, some 4, some 300000⟩ : Greenhouse)
        ≠ ⟨"B", some 0, some 5, some 300000⟩ := by
  refine ⟨by decide, by decide⟩

/-- C2 amended: on each tick, every greenhouse is ticked independently of the
Active Timer pointer — each Running one (`currentTime = c > 0`) is
decremented to `c - 1`, each non-Running one is left unchanged — and the
pointer itself is not consulted or modified. -/
theorem claim2_amended (gen : Nat → String) (s : AppState) (logs : LogsState)
    (k : String) (g : Greenhouse) (c : Int)
    (_hmem : (k, g) ∈ s.greenhouses) (hc : g.currentTime = some c) (hpos : 0 < c) :
    (tickStep gen s logs).1.greenhouses
        = s.greenhouses.map (fun p => (p.1, (tickOne p.1 p.2).1))
      ∧ (tickOne k g).1.currentTime = some (c - 1)
      ∧ (∀ g' : Greenhouse, notRunning g' → (tickOne k g').1 = g')
      ∧ (tickStep gen s logs).1.activeTimer = s.activeTimer := by
  refine ⟨?_, ?_, ?_, ?_⟩
  · simp [tickStep, tickFold_fst]
  · simp only [tickOne, hc]
    rw [if_pos hpos]
  · intro g' hg'
    rw [tickOne_notRunning k g' hg']
  · simp [tickStep]

/-- Witness for C2 amended: `solar1` is decremented by a tick even though the
Active Timer pointer designates `solar0`. -/
theorem claim2_witness :
    (tickOne "solar1" (⟨"B", some 0, some 5, some 300000⟩ : Greenhouse)).1.currentTime
      = some 4 :=
  (claim2_amended (fun _ => "t")
      ⟨[("solar0", ⟨"A", some 0, some 10, some 600000⟩),
        ("solar1", ⟨"B", some 0, some 5, some 300000⟩)], some "solar0"⟩ ⟨[]⟩
      "solar1" ⟨"B", some 0, some 5, some 300000⟩ 5
      (by decide) rfl (by decide)).2.1

/-- C9: on the tick where the `currentTime` of a greenhouse reaches exactly 0, a
`null` `targetTime` or `lastRun` suppresses the log append: the log store is
returned unchanged while the greenhouse still moves to `currentTime = 0`. -/
theorem claim9_silent_completion (gen : Nat → String) (s : AppState) (logs : LogsState)
    (pre post : List (String × Greenhouse)) (k : String) (g : Greenhouse)
    (hs : s.greenhouses = pre ++ (k, g) :: post)
    (hc : g.currentTime = some 1)
    (hnull : g.targetTime = none ∨ g.lastRun = none)
    (hpre : ∀ p ∈ pre, notRunning p.2) (hpost : ∀ p ∈ post, notRunning p.2) :
    (tickStep gen s logs).2 = logs ∧
      (tickStep gen s logs).1.greenhouses
        = pre ++ (k, { g with currentTime := some 0 }) :: post := by
  rw [tickStep_single gen s logs pre post k g 1 hs hc (by norm_num) hpre hpost]
  constructor
  · rcases hnull with ht | hr
    · simp [ht]
    · cases ht : g.targetTime <;> simp [ht, hr]
  · norm_num

/-- Witness for C9: a Running greenhouse with `targetTime = null` (as restored
from inconsistent persisted data) completes without any log entry. -/
theorem claim9_witness :
    (tickStep (fun _ => "t")
        ⟨[("solar0", ⟨"A", some 0, some 1, none⟩)], some "solar0"⟩ ⟨[]⟩).2 = ⟨[]⟩ :=
  (claim9_silent_completion (fun _ => "t")
      ⟨[("solar0", ⟨"A", some 0, some 1, none⟩)], some "solar0"⟩ ⟨[]⟩
      [] [] "solar0" ⟨"A", some 0, some 1, none⟩ rfl rfl (Or.inl rfl)
      (by simp) (by simp)).1

/-- Cancel of a Running greenhouse with non-null `lastRun`/`targetTime`:
the greenhouse is reset, the pointer cleared, and one "canceled" entry is
appended with `duration = round((t-r)/60000) - round(c/60)`. -/
theorem handleTimerCancel_running (s : AppState) (logs : LogsState) (id k : String)
    (g : Greenhouse) (c r t : Int)
    (hact : s.activeTimer = some k)
    (hg : lookupGH s.greenhouses k = some g)
    (hc : g.currentTime = some c) (hpos : 0 < c)
    (hr : g.lastRun = some r) (ht : g.targetTime = some t) :
    handleTimerCancel s logs id =
      some (⟨setGH s.greenhouses k { g with currentTime := none, targetTime := none }, none⟩,
        addLogEntry logs
          ⟨k, r, jsRound (t - r) 60000 - jsRound c 60, Status.canceled⟩ id) := by
  simp only [handleTimerCancel, hact, hg, hc, hr, ht]
  rw [if_pos hpos]

/-- C3 counterexample: greenhouse started with `m = 5` minutes
(`targetTime - lastRun = 300000` ms) and canceled with 29 seconds left, i.e.
at tick 271, not at tick 0 (`29 ≠ 5*60`): the logged canceled duration is
`5 - round(29/60) = 5`, which is not strictly less than `m = 5`. -/
theorem claim3_counterexample :
    handleTimerCancel
        ⟨[("solar0", ⟨"A", some 0, some 29, some 300000⟩)], some "solar0"⟩ ⟨[]⟩ "x"
      = some (⟨[("solar0", ⟨"A", some 0, none, none⟩)], none⟩,
          ⟨[⟨"x", "solar0", 0, 5, Status.canceled⟩]⟩)
    ∧ jsRound (300000 - 0) 60000 = 5
    ∧ ¬ ((5 : Int) < 5)
    ∧ (29 : Int) ≠ 5 * 60 := by
  refine ⟨by decide, by decide, by decide, by decide⟩

/-- C3 amended: canceling a Running greenhouse started with `m` minutes
(`targetTime = lastRun + m*60*1000`, `0 < currentTime ≤ m*60`) appends
exactly one "canceled" entry with
`duration = round((targetTime-lastRun)/60000) - round(currentTime/60)
         = m - round(currentTime/60)`;
this duration satisfies `0 ≤ duration ≤ m`; it is strictly below `m` exactly
when at least 30 seconds remain, and equals `m` when fewer than 30 seconds
remain (`currentTime ≤ 29`) — not only at tick 0. -/
theorem claim3_amended (s : AppState) (logs : LogsState) (id k : String)
    (g : Greenhouse) (m c r : Int)
    (hact : s.activeTimer = some k)
    (hg : lookupGH s.greenhouses k = some g)
    (hc : g.currentTime = some c) (hpos : 0 < c) (hle : c ≤ m * 60)
    (hr : g.lastRun = some r) (ht : g.targetTime = some (r + m * 60 * 1000)) :
    handleTimerCancel s logs id
        = some (⟨setGH s.greenhouses k { g with currentTime := none, targetTime := none }, none⟩,
            addLogEntry logs ⟨k, r, m - jsRound c 60, Status.canceled⟩ id)
      ∧ 0 ≤ m - jsRound c 60 ∧ m - jsRound c 60 ≤ m
      ∧ (30 ≤ c → m - jsRound c 60 < m)
      ∧ (c ≤ 29 → m - jsRound c 60 = m) := by
  have hd : jsRound (r + m * 60 * 1000 - r) 60000 = m := jsRound_select m r
  refine ⟨?_, ?_, ?_, ?_, ?_⟩
  · rw [handleTimerCancel_running s logs id k g c r _ hact hg hc hpos hr ht, hd]
  · simp only [jsRound]; omega
  · simp only [jsRound]; omega
  · intro h30; simp only [jsRound]; omega
  · intro h29; simp only [jsRound]; omega

/-- Witness for C3 amended: started with 10 minutes and canceled with
480 seconds remaining (120 elapsed): the logged canceled duration is
`10 - round(480/60) = 2`. -/
theorem claim3_witness :
    handleTimerCancel
        ⟨[("solar1", ⟨"B", some 0, some 480, some 600000⟩)], some "solar1"⟩ ⟨[]⟩ "x"
      = some (⟨setGH [("solar1", ⟨"B", some 0, some 480, some 600000⟩)] "solar1"
                 ⟨"B", some 0, none, none⟩, none⟩,
          addLogEntry ⟨[]⟩ ⟨"solar1", 0, 10 - jsRound 480 60, Status.canceled⟩ "x") :=
  (claim3_amended ⟨[("solar1", ⟨"B", some 0, some 480, some 600000⟩)], some "solar1"⟩
      ⟨[]⟩ "x" "solar1" ⟨"B", some 0, some 480, some 600000⟩ 10 480 0
      rfl (by decide) rfl (by decide) (by decide) rfl (by decide)).1

/-- C8: for a Cancel of a Running greenhouse whose timer was started with
selected duration `m` (`0 < currentTime ≤ m*60` and
`round((targetTime - lastRun)/60000) = m`), the logged canceled duration
`round((t-r)/60000) - round(c/60)` satisfies `0 ≤ duration ≤ m`. -/
theorem claim8_cancel_duration_bounds (s : AppState) (logs : LogsState) (id k : String)
    (g : Greenhouse) (m c r t : Int)
    (hact : s.activeTimer = some k)
    (hg : lookupGH s.greenhouses k = some g)
    (hc : g.currentTime = some c) (hpos : 0 < c) (hle : c ≤ m * 60)
    (hr : g.lastRun = some r) (ht : g.targetTime = some t)
    (hdur : jsRound (t - r) 60000 = m) :
    handleTimerCancel s logs id
        = some (⟨setGH s.greenhouses k { g with currentTime := none, targetTime := none }, none⟩,
            addLogEntry logs
              ⟨k, r, jsRound (t - r) 60000 - jsRound c 60, Status.canceled⟩ id)
      ∧ 0 ≤ jsRound (t - r) 60000 - jsRound c 60
      ∧ jsRound (t - r) 60000 - jsRound c 60 ≤ m := by
  refine ⟨handleTimerCancel_running s logs id k g c r t hact hg hc hpos hr ht, ?_, ?_⟩
  · rw [hdur]; simp only [jsRound]; omega
  · rw [hdur]; simp only [jsRound]; omega

/-- Witness for C8: cancel at `c = 29` of a 5-minute run — the logged
duration equals 5, inside the `[0, m]` bounds. -/
theorem claim8_witness :
    0 ≤ jsRound (300000 - 0) 60000 - jsRound 29 60
      ∧ jsRound (300000 - 0) 60000 - jsRound 29 60 ≤ 5 :=
  ⟨(claim8_cancel_duration_bounds
      ⟨[("solar0", ⟨"A", some 0, some 29, some 300000⟩)], some "solar0"⟩ ⟨[]⟩ "x"
      "solar0" ⟨"A", some 0, some 29, some 300000⟩ 5 29 0 300000
      rfl (by decide) rfl (by decide) (by decide) rfl rfl (by decide)).2.1,
   (claim8_cancel_duration_bounds
      ⟨[("solar0", ⟨"A", some 0, some 29, some 300000⟩)], some "solar0"⟩ ⟨[]⟩ "x"
      "solar0" ⟨"A", some 0, some 29, some 300000⟩ 5 29 0 300000
      rfl (by decide) rfl (by decide) (by decide) rfl rfl (by decide)).2.2⟩

instance (g : Greenhouse) : Decidable (ghInv g) := by
  unfold ghInv; infer_instance

instance (s : AppState) : Decidable (stInv s) := by
  unfold stInv; exact List.decidableBAll _ _

theorem ghInv_setGH (gs : List (String × Greenhouse)) (k : String) (g : Greenhouse)
    (hgs : ∀ p ∈ gs, ghInv p.2) (hg : ghInv g) :
    ∀ p ∈ setGH gs k g, ghInv p.2 := by
  induction gs with
  | nil =>
      intro p hp
      simp only [setGH, List.mem_singleton] at hp
      subst hp; exact hg
  | cons hd tl ih =>
      obtain ⟨k0, g0⟩ := hd
      intro p hp
      by_cases hk : k0 = k
      · simp only [setGH, if_pos hk, List.mem_cons] at hp
        rcases hp with h | h
        · subst h; exact hg
        · exact hgs p (List.mem_cons_of_mem _ h)
      · simp only [setGH, if_neg hk, List.mem_cons] at hp
        rcases hp with h | h
        · subst h; exact hgs (k0, g0) (List.mem_cons_self _ _)
        · exact ih (fun q hq => hgs q (List.mem_cons_of_mem _ hq)) p h

theorem ghInv_tickOne (k : String) (g : Greenhouse) (hg : ghInv g) :
    ghInv (tickOne k g).1 := by
  cases hc : g.currentTime with
  | none => simpa [tickOne, hc] using hg
  | some c =>
      by_cases hpos : 0 < c
      · have htgt : g.targetTime ≠ none := by
          intro h
          have := hg.mpr h
          rw [hc] at this
          exact Option.noConfusion this
        simp only [tickOne, hc, if_pos hpos]
        constructor
        · intro h; exact absurd h (by simp)
        · intro h; exact absurd h htgt
      · simpa [tickOne, hc, if_neg hpos] using hg

/-- C4: the idle invariant `currentTime == null ⇔ targetTime == null` is
preserved by every transition: Start (`handleTimerSelect`), Tick together
with its synchronous Complete (`tickStep`), Acknowledge and modal-opening
clicks (`handleGreenhouseClick`), and Cancel (`handleTimerCancel`). -/
theorem claim4_idle_invariant (s : AppState) (hinv : stInv s) :
    (∀ sel (m now : Int), stInv (handleTimerSelect sel m now s))
      ∧ (∀ gen logs, stInv (tickStep gen s logs).1)
      ∧ (∀ modal sel k res,
          handleGreenhouseClick s modal sel k = some res → stInv res.1)
      ∧ (∀ logs id s' logs',
          handleTimerCancel s logs id = some (s', logs') → stInv s') := by
  refine ⟨?_, ?_, ?_, ?_⟩
  · intro sel m now
    cases sel with
    | none => exact hinv
    | some k =>
        intro p hp
        simp only [handleTimerSelect] at hp
        exact ghInv_setGH s.greenhouses k _ hinv (by simp [ghInv, startGH]) p hp
  · intro gen logs p hp
    simp only [tickStep, tickFold_fst] at hp
    obtain ⟨q, hq, rfl⟩ := List.mem_map.mp hp
    exact ghInv_tickOne q.1 q.2 (hinv q hq)
  · intro modal sel k res hres
    cases hg : lookupGH s.greenhouses k with
    | none => simp [handleGreenhouseClick, hg] at hres
    | some g =>
        cases hc : g.currentTime with
        | none =>
            simp only [handleGreenhouseClick, hg, hc, Option.some.injEq] at hres
            subst hres; exact hinv
        | some c =>
            by_cases h0 : c = 0
            · subst h0
              simp only [handleGreenhouseClick, hg, hc, if_pos rfl, if_true,
                Option.some.injEq] at hres
              subst hres
              intro p hp
              exact ghInv_setGH s.greenhouses k _ hinv (by simp [ghInv]) p hp
            · by_cases hpos : 0 < c
              · simp only [handleGreenhouseClick, hg, hc, if_neg h0, if_pos hpos,
                  Option.some.injEq] at hres
                subst hres; exact hinv
              · simp only [handleGreenhouseClick, hg, hc, if_neg h0, if_neg hpos,
                  Option.some.injEq] at hres
                subst hres; exact hinv
  · intro logs id s' logs' hres
    cases hact : s.activeTimer with
    | none =>
        simp only [handleTimerCancel, hact, Option.some.injEq, Prod.mk.injEq] at hres
        rw [← hres.1]; exact hinv
    | some k =>
        cases hg : lookupGH s.greenhouses k with
        | none => simp [handleTimerCancel, hact, hg] at hres
        | some g =>
            simp only [handleTimerCancel, hact, hg, Option.some.injEq,
              Prod.mk.injEq] at hres
            rw [← hres.1]
            intro p hp
            exact ghInv_setGH s.greenhouses k _ hinv (by simp [ghInv]) p hp

/-- Witness for C4: Start("solar0", 5) from the default state preserves the
idle invariant. -/
theorem claim4_witness :
    stInv (handleTimerSelect (some "solar0") 5 1000 defaultState) :=
  (claim4_idle_invariant defaultState (by decide)).1 (some "solar0") 5 1000

/-- C5: `addLogEntry` never returns more than 1000 entries; the new entry is
prepended as newest, and the survivors are exactly the first 999 old entries
(so only the oldest beyond the cap are dropped). -/
theorem claim5_log_cap (logs : LogsState) (entry : LogDraft) (id : String) :
    (addLogEntry logs entry id).entries.length ≤ 1000
      ∧ (addLogEntry logs entry id).entries.head?
          = some ⟨id, entry.greenhouseId, entry.date, entry.duration, entry.status⟩
      ∧ (addLogEntry logs entry id).entries.tail = logs.entries.take 999 := by
  refine ⟨?_, ?_, ?_⟩
  · rw [addLogEntry_entries]
    simp only [List.length_cons, List.length_take]
    omega
  · rw [addLogEntry_entries]; rfl
  · rw [addLogEntry_entries]; rfl

/-- C10: appending leaves every surviving pre-existing entry unchanged and in
its original relative order (the entry at old position `i < 999` sits at
position `i + 1`; only entries past position 999 after the prepend are
dropped), and the payload fields of the new head equal those of the input draft. -/
theorem claim10_append_frame (logs : LogsState) (entry : LogDraft) (id : String) :
    ((addLogEntry logs entry id).entries.drop 1 = logs.entries.take 999)
      ∧ (∀ i : Nat, i < 999 →
           (addLogEntry logs entry id).entries.get? (i + 1) = logs.entries.get? i)
      ∧ (∀ e, (addLogEntry logs entry id).entries.head? = some e →
           e.greenhouseId = entry.greenhouseId ∧ e.date = entry.date
             ∧ e.duration = entry.duration ∧ e.status = entry.status) := by
  refine ⟨?_, ?_, ?_⟩
  · rw [addLogEntry_entries]; rfl
  · intro i hi
    rw [addLogEntry_entries]
    simp only [List.get?_cons_succ]
    exact List.get?_take hi
  · intro e he
    rw [addLogEntry_entries] at he
    simp only [List.head?_cons, Option.some.injEq] at he
    subst he
    exact ⟨rfl, rfl, rfl, rfl⟩

/-- Witness for C10 on a concrete one-entry store. -/
theorem claim10_witness :
    (addLogEntry ⟨[⟨"old", "solar1", 7, 9, Status.canceled⟩]⟩
        ⟨"solar0", 5, 3, Status.completed⟩ "new").entries.get? 1
      = some ⟨"old", "solar1", 7, 9, Status.canceled⟩ :=
  (claim10_append_frame ⟨[⟨"old", "solar1", 7, 9, Status.canceled⟩]⟩
      ⟨"solar0", 5, 3, Status.completed⟩ "new").2.1 0 (by omega)

/-- C7 counterexample: `solar0` is not Idle (`currentTime = 0`, i.e.
JustCompleted); clicking it neither fails nor leaves the state unchanged —
it succeeds and resets the greenhouse (acknowledge).  No `InvalidStateError`
exists in the program. -/
theorem claim7_counterexample :
    handleGreenhouseClick
        ⟨[("solar0", ⟨"A", some 5, some 0, some 100⟩)], some "solar0"⟩ false none "solar0"
      = some (⟨[("solar0", ⟨"A", some 5, none, none⟩)], none⟩, false, none)
    ∧ some (0 : Int) ≠ (none : Option Int)
    ∧ (⟨"A", some 5, none, none⟩ : Greenhouse) ≠ ⟨"A", some 5, some 0, some 100⟩ := by
  refine ⟨by decide, by decide, by decide⟩

/-- C7 amended: no start is ever rejected with an error.  Clicking a Running
greenhouse (`currentTime > 0`) is a silent no-op (state unchanged, modal not
opened); clicking a JustCompleted one (`currentTime = 0`) acknowledges it
(resets the greenhouse and clears the pointer, modal not opened); a negative
`currentTime` behaves like Idle and opens the timer-selection modal. -/
theorem claim7_amended (s : AppState) (modal : Bool) (sel : Option String) (k : String)
    (g : Greenhouse) (c : Int)
    (hg : lookupGH s.greenhouses k = some g) (hc : g.currentTime = some c) :
    (0 < c → handleGreenhouseClick s modal sel k = some (s, modal, sel))
      ∧ (c = 0 → handleGreenhouseClick s modal sel k
          = some (⟨setGH s.greenhouses k { g with currentTime := none, targetTime := none },
                    none⟩, modal, sel))
      ∧ (c < 0 → handleGreenhouseClick s modal sel k = some (s, true, some k)) := by
  refine ⟨?_, ?_, ?_⟩ <;> intro h <;> simp only [handleGreenhouseClick, hg, hc]
  · rw [if_neg (by omega), if_pos h]
  · rw [if_pos h]
  · rw [if_neg (by omega), if_neg (by omega)]

/-- Witness for C7 amended: the acknowledge branch at `currentTime = 0`. -/
theorem claim7_witness :
    handleGreenhouseClick
        ⟨[("solar0", ⟨"A", some 5, some 0, some 100⟩)], some "solar0"⟩ false none "solar0"
      = some (⟨setGH [("solar0", ⟨"A", some 5, some 0, some 100⟩)] "solar0"
                ⟨"A", some 5, none, none⟩, none⟩, false, none) :=
  (claim7_amended ⟨[("solar0", ⟨"A", some 5, some 0, some 100⟩)], some "solar0"⟩
      false none "solar0" ⟨"A", some 5, some 0, some 100⟩ 0 rfl rfl).2.1 rfl

/-- C6: whenever loading a persisted slot fails — the stored text does not
parse (`some none`) or the parsed value has the wrong shape so the guarded
reconstruction throws (`tryDecode… = none`) — the startup initializers
return the default initial state and default seed logs instead of
propagating the failure. -/
theorem claim6_malformed_load_defaults (slotS slotL : Option (Option Json)) (now : Int)
    (hS : slotS = some none ∨ ∃ j, slotS = some (some j) ∧ tryDecodeState j = none)
    (hL : slotL = some none ∨ ∃ j, slotL = some (some j) ∧ tryDecodeLogs j = none) :
    loadAppState slotS = defaultStateJson ∧ loadLogs now slotL = defaultLogsJson now := by
  constructor
  · rcases hS with h | ⟨j, hj, hd⟩
    · rw [h]; exact rfl
    · rw [hj]; simp [loadAppState, hd]
  · rcases hL with h | ⟨j, hj, hd⟩
    · rw [h]; exact rfl
    · rw [hj]; simp [loadLogs, hd]

/-- Witness for C6: a payload missing the `greenhouses` field and a payload
whose text does not parse both load as the defaults. -/
theorem claim6_witness :
    loadAppState (some (some (Json.obj []))) = defaultStateJson
      ∧ loadLogs 0 (some none) = defaultLogsJson 0 :=
  claim6_malformed_load_defaults (some (some (Json.obj []))) (some none) 0
    (Or.inr ⟨Json.obj [], rfl, rfl⟩) (Or.inl rfl)

end Gradina
